import Mathlib

/-!
Verification of the template-repository CLI of the PythonTutorExercises
repository (`scripts/template_repo_cli`): exercise selection, file collection,
template packaging, the GitHub host client, and the orchestrator.

The Python code is shallowly embedded: pure functions become Lean functions,
filesystem state becomes explicit list-of-paths state, subprocess execution
becomes oracles plus an explicit event trace, and raised exceptions become
`Except String`.  Bodies in `utils/validation.py`, `utils/filesystem.py` and
`core/collector.py` are `NotImplementedError` stubs in the source tree; those
definitions are modelled from the specification (and the repository's own unit
tests) and are marked `Modelled from the spec:` in their doc comments.
-/

/-! ### Python string primitives

Python compares strings lexicographically by code point; `str.lower`
lower-cases each character; `sub in s` is substring containment.  The
built-in `String` order in Lean does not reduce in the kernel, so we work on
the underlying character lists.
-/

/-- Lexicographic code-point comparison of character lists: the order Python
uses for `sorted` on strings. -/
def charListLe : List Char → List Char → Bool
  | [], _ => true
  | _ :: _, [] => false
  | a :: as, b :: bs => if a = b then charListLe as bs else decide (a < b)

/-- Python's `a <= b` on strings. -/
def pyLe (a b : String) : Prop := charListLe a.data b.data = true

instance : DecidableRel pyLe := fun a b => by unfold pyLe; infer_instance

theorem charListLe_total : ∀ as bs : List Char,
    charListLe as bs = true ∨ charListLe bs as = true := by
  intro as
  induction as with
  | nil => intro bs; left; rfl
  | cons a as ih =>
    intro bs
    cases bs with
    | nil => right; rfl
    | cons b bs =>
      by_cases hab : a = b
      · subst hab
        rcases ih bs with h | h
        · left; simp [charListLe, h]
        · right; simp [charListLe, h]
      · rcases lt_or_gt_of_ne hab with h | h
        · left; simp [charListLe, hab, h]
        · right
          have hba : b ≠ a := fun e => hab e.symm
          simp [charListLe, hba, h]

theorem charListLe_trans : ∀ as bs cs : List Char,
    charListLe as bs = true → charListLe bs cs = true → charListLe as cs = true := by
  intro as
  induction as with
  | nil => intro bs cs _ _; rfl
  | cons a as ih =>
    intro bs cs h1 h2
    cases bs with
    | nil => simp [charListLe] at h1
    | cons b bs =>
      cases cs with
      | nil => simp [charListLe] at h2
      | cons c cs =>
        by_cases hab : a = b
        · subst hab
          by_cases hac : a = c
          · subst hac
            simp only [charListLe, if_pos rfl] at h1 h2 ⊢
            exact ih bs cs h1 h2
          · simp only [charListLe, if_pos rfl] at h1
            simp only [charListLe, if_neg hac] at h2 ⊢
            exact h2
        · simp only [charListLe, if_neg hab, decide_eq_true_eq] at h1
          by_cases hbc : b = c
          · subst hbc
            simp only [charListLe, if_neg hab, decide_eq_true_eq]
            exact h1
          · simp only [charListLe, if_neg hbc, decide_eq_true_eq] at h2
            have hlt : a < c := lt_trans h1 h2
            have hac : a ≠ c := ne_of_lt hlt
            simp only [charListLe, if_neg hac, decide_eq_true_eq]
            exact hlt

instance : IsTotal String pyLe := ⟨fun a b => charListLe_total a.data b.data⟩

instance : IsTrans String pyLe := ⟨fun a b c => charListLe_trans a.data b.data c.data⟩

/-- Python's `sorted` on a list of strings (a stable comparison sort over the
code-point order). -/
def pySorted (l : List String) : List String := List.insertionSort pyLe l

theorem pySorted_sorted (l : List String) : List.Sorted pyLe (pySorted l) :=
  List.sorted_insertionSort pyLe l

theorem pySorted_perm (l : List String) : (pySorted l).Perm l :=
  List.perm_insertionSort pyLe l

/-- Python's `str.lower` on the character list. -/
def lowerChars (cs : List Char) : List Char := cs.map Char.toLower

/-- Python's `sub in s` substring test, on character lists. -/
def isSubChars (needle hay : List Char) : Bool :=
  hay.tails.any (fun t => needle.isPrefixOf t)

theorem isSubChars_iff {needle hay : List Char} :
    isSubChars needle hay = true ↔ needle <:+: hay := by
  constructor
  · intro h
    rcases List.any_eq_true.mp h with ⟨t, ht, hp⟩
    exact List.infix_iff_prefix_suffix.mpr
      ⟨t, List.isPrefixOf_iff_prefix.mp hp, (List.mem_tails _ _).mp ht⟩
  · intro h
    rcases List.infix_iff_prefix_suffix.mp h with ⟨t, hp, hs⟩
    exact List.any_eq_true.mpr
      ⟨t, (List.mem_tails _ _).mpr hs, List.isPrefixOf_iff_prefix.mpr hp⟩

/-- Python's `str.startswith`, on the character lists of the strings. -/
def startsWithChars (s pre : String) : Bool := pre.data.isPrefixOf s.data

/-! ### `fnmatch` glob matching

`ExerciseSelector.select_by_pattern` filters notebook stems with
`fnmatch.fnmatch`, and `get_all_notebooks` scans with `Path.glob("ex*.ipynb")`.
We model the shared shell-style pattern language: `*`, `?`, `[...]` character
classes with ranges and `!` negation, everything else literal, an unmatched
`[` taken literally.  Patterns are first tokenized (with fuel equal to the
pattern length, which always suffices since every step consumes at least one
character) and then matched structurally.
-/

inductive GlobTok where
  | star
  | qmark
  | lit (c : Char)
  | cls (neg : Bool) (items : List (Char × Char))
deriving DecidableEq

/-- Scan the body of a `[...]` class, returning the collected
(lo, hi) ranges and the remainder after the closing `]`; `none` when the
class is never closed.  A `]` in first position is literal. -/
def scanClass : Nat → Bool → List (Char × Char) → List Char →
    Option (List (Char × Char) × List Char)
  | 0, _, _, _ => none
  | _ + 1, _, _, [] => none
  | fuel + 1, first, acc, ']' :: rest =>
    if first then scanClass fuel false ((']', ']') :: acc) rest
    else some (acc.reverse, rest)
  | fuel + 1, _, acc, a :: '-' :: b :: rest =>
    if b = ']' then scanClass fuel false ((a, a) :: acc) ('-' :: b :: rest)
    else scanClass fuel false ((a, b) :: acc) rest
  | fuel + 1, _, acc, a :: rest => scanClass fuel false ((a, a) :: acc) rest

/-- Tokenize a glob pattern. -/
def tokenizeGlob : Nat → List Char → List GlobTok
  | 0, _ => []
  | _ + 1, [] => []
  | fuel + 1, '*' :: rest => .star :: tokenizeGlob fuel rest
  | fuel + 1, '?' :: rest => .qmark :: tokenizeGlob fuel rest
  | fuel + 1, '[' :: rest =>
    match rest with
    | '!' :: body =>
      match scanClass (body.length + 1) true [] body with
      | some (items, rest2) => .cls true items :: tokenizeGlob fuel rest2
      | none => .lit '[' :: tokenizeGlob fuel rest
    | body =>
      match scanClass (body.length + 1) true [] body with
      | some (items, rest2) => .cls false items :: tokenizeGlob fuel rest2
      | none => .lit '[' :: tokenizeGlob fuel rest
  | fuel + 1, c :: rest => .lit c :: tokenizeGlob fuel rest

def globToks (pattern : String) : List GlobTok :=
  tokenizeGlob pattern.data.length pattern.data

def inClass (items : List (Char × Char)) (c : Char) : Bool :=
  items.any (fun ab => ab.1 ≤ c && c ≤ ab.2)

def matchToks : List GlobTok → List Char → Bool
  | [], t => t.isEmpty
  | .star :: ps, t => t.tails.any (fun s => matchToks ps s)
  | .qmark :: ps, t =>
    match t with
    | [] => false
    | _ :: cs => matchToks ps cs
  | .lit c :: ps, t =>
    match t with
    | [] => false
    | d :: cs => c = d && matchToks ps cs
  | .cls neg items :: ps, t =>
    match t with
    | [] => false
    | d :: cs => (inClass items d != neg) && matchToks ps cs

/-- `fnmatch.fnmatch(name, pattern)` on POSIX (where `normcase` is the
identity). -/
def fnmatchB (name pattern : String) : Bool :=
  matchToks (globToks pattern) name.data

/-! ### Validator (spec-modelled)

`utils/validation.py` declares the validators but every body is a
`NotImplementedError` stub, so these are modelled from the specification
("pure functions validating/sanitizing construct names, type names,
repository-name slugs, and glob patterns against fixed rule sets") and from
the repository's own unit tests (`tests/template_repo_cli/test_validation.py`).
-/

/-- Modelled from the spec: `validate_construct_name` in
`utils/validation.py` is a `NotImplementedError` stub; the spec fixes a
closed, case-sensitive enumeration of construct names. -/
def validate_construct_name (construct : String) : Bool :=
  ["sequence", "selection", "iteration", "data_types", "lists",
   "dictionaries", "functions", "file_handling", "exceptions",
   "libraries", "oop"].contains construct

/-- Modelled from the spec: `validate_type_name` in `utils/validation.py` is a
`NotImplementedError` stub; the spec fixes the closed enumeration
debug / modify / make. -/
def validate_type_name (type_name : String) : Bool :=
  ["debug", "modify", "make"].contains type_name

/-- Modelled from the spec: `validate_repo_name` in `utils/validation.py` is a
`NotImplementedError` stub; per the spec and the unit tests a repository slug
is non-empty and made of lowercase letters, digits, hyphens and
underscores. -/
def validate_repo_name (repo_name : String) : Bool :=
  !(repo_name = "") &&
    repo_name.data.all (fun ch => ch.isLower || ch.isDigit || ch = '-' || ch = '_')

/-- Modelled from the spec: `validate_notebook_pattern` in
`utils/validation.py` is a `NotImplementedError` stub; per the spec a pattern
is non-empty and contains no path separators (glob metacharacters are
allowed). -/
def validate_notebook_pattern (pattern : String) : Bool :=
  !(pattern = "") && !(pattern.data.contains '/') && !(pattern.data.contains '\\')

/-! ### Exercise Selector (`core/selector.py`)

The selector reads two pieces of on-disk state: the flat `notebooks/`
directory (a list of file names) and the `exercises/<construct>/<type>/<id>/`
taxonomy tree (directory entries with an is-directory flag, as seen by
`Path.iterdir`).
-/

/-- An entry two levels down the taxonomy: a candidate exercise directory. -/
structure ExEntry where
  name : String
  isDir : Bool
deriving DecidableEq

/-- A `<type>` entry under a construct directory. -/
structure TypeEntry where
  name : String
  isDir : Bool
  children : List ExEntry
deriving DecidableEq

/-- A `<construct>` entry under `exercises/`. -/
structure ConstructEntry where
  name : String
  isDir : Bool
  children : List TypeEntry
deriving DecidableEq

/-- The filesystem state visible to `ExerciseSelector`. -/
structure SelectorFS where
  notebookFiles : List String
  exercisesDirs : List ConstructEntry
deriving DecidableEq

/-- `Path.stem`: the file name minus its last suffix; a leading dot or a
trailing dot does not start a suffix. -/
def pathStem (s : String) : String :=
  let n := s.data
  match (n.reverse.findIdx? (fun c => c = '.')).map (fun j => n.length - 1 - j) with
  | some i => if 0 < i ∧ i < n.length - 1 then ⟨n.take i⟩ else s
  | none => s

/-- `ExerciseSelector.get_all_notebooks`: stems of `notebooks/ex*.ipynb`. -/
def get_all_notebooks (fs : SelectorFS) : List String :=
  (fs.notebookFiles.filter (fun f => fnmatchB f "ex*.ipynb")).map pathStem

/-- Exercise directories under one construct directory:
`for type_dir in construct_dir.iterdir(): if type_dir.is_dir(): for ex_dir in
type_dir.iterdir(): if ex_dir.is_dir() and ex_dir.name.startswith("ex")`. -/
def constructExercises (cd : ConstructEntry) : List String :=
  cd.children.flatMap (fun td =>
    if td.isDir then
      td.children.filterMap (fun e =>
        if e.isDir && startsWithChars e.name "ex" then some e.name else none)
    else [])

/-- `ExerciseSelector.select_by_construct`. -/
def select_by_construct (fs : SelectorFS) (constructs : List String) :
    Except String (List String) :=
  if constructs = [] then
    .error "At least one construct must be specified"
  else
    match constructs.find? (fun c => !validate_construct_name c) with
    | some c => .error ("Invalid construct: " ++ c)
    | none =>
      let exercises := constructs.flatMap (fun c =>
        match fs.exercisesDirs.find? (fun cd => cd.name = c) with
        | some cd => constructExercises cd
        | none => [])
      .ok (pySorted exercises.dedup)

/-- `ExerciseSelector.select_by_type`. -/
def select_by_type (fs : SelectorFS) (types : List String) :
    Except String (List String) :=
  if types = [] then
    .error "At least one type must be specified"
  else
    match types.find? (fun t => !validate_type_name t) with
    | some t => .error ("Invalid type: " ++ t)
    | none =>
      let exercises := fs.exercisesDirs.flatMap (fun cd =>
        if cd.isDir then
          cd.children.flatMap (fun td =>
            if td.isDir && types.contains td.name then
              td.children.filterMap (fun e =>
                if e.isDir && startsWithChars e.name "ex" then some e.name else none)
            else [])
        else [])
      .ok (pySorted exercises.dedup)

/-- `ExerciseSelector.select_by_construct_and_type` (direct path construction;
note the source has no emptiness guard here). -/
def select_by_construct_and_type (fs : SelectorFS)
    (constructs types : List String) : Except String (List String) :=
  match constructs.find? (fun c => !validate_construct_name c) with
  | some c => .error ("Invalid construct: " ++ c)
  | none =>
    match types.find? (fun t => !validate_type_name t) with
    | some t => .error ("Invalid type: " ++ t)
    | none =>
      let exercises := constructs.flatMap (fun c =>
        match fs.exercisesDirs.find? (fun cd => cd.name = c) with
        | some cd =>
          types.flatMap (fun t =>
            match cd.children.find? (fun td => td.name = t) with
            | some td =>
              td.children.filterMap (fun e =>
                if e.isDir && startsWithChars e.name "ex" then some e.name else none)
            | none => [])
        | none => [])
      .ok (pySorted exercises.dedup)

/-- `ExerciseSelector.select_by_notebooks`; note the source returns
`sorted(notebooks)` of the *request* without deduplication. -/
def select_by_notebooks (fs : SelectorFS) (notebooks : List String) :
    Except String (List String) :=
  if notebooks = [] then
    .error "At least one notebook must be specified"
  else
    match notebooks.find? (fun nb => !(get_all_notebooks fs).contains nb) with
    | some nb => .error ("Notebook not found: " ++ nb)
    | none => .ok (pySorted notebooks)

/-- `ExerciseSelector.select_by_pattern`. -/
def select_by_pattern (fs : SelectorFS) (pattern : String) :
    Except String (List String) :=
  if !validate_notebook_pattern pattern then
    .error ("Invalid pattern: " ++ pattern)
  else
    .ok (pySorted ((get_all_notebooks fs).filter (fun nb => fnmatchB nb pattern)))

/-! ### File Collector (spec-modelled, `core/collector.py`)

`FileCollector.collect_files` is a `NotImplementedError` stub in the source
tree; only its declaration, its tests and its callers exist.  The model below
follows the specification: notebook at `notebooks/<id>.ipynb` and test at
`tests/test_<id>.py` are required (absence raises a missing-file error naming
the exercise id and role), solution at `notebooks/solutions/<id>.ipynb` and
the taxonomy README metadata are optional (absence maps the role to an absent
value).  Paths are lists of path segments; the repository is a list of
existing file paths.
-/

/-- The filesystem state visible to `FileCollector`: the existing files of the
repository, as segment lists relative to the repository root. -/
structure CollectorFS where
  files : List (List String)
deriving DecidableEq

/-- A collected `FileSet`: role-to-path mapping with optional roles absent. -/
structure FileSet where
  notebook : List String
  solution : Option (List String)
  test : List String
  metadata : Option (List String)
deriving DecidableEq

/-- Whether a path is the taxonomy README
`exercises/<construct>/<type>/<id>/README.md` of the given exercise. -/
def isMetaFor (exercise_id : String) (p : List String) : Bool :=
  match p with
  | [a, _, _, e, b] => a = "exercises" && b = "README.md" && e = exercise_id
  | _ => false

/-- Modelled from the spec: metadata is "the taxonomy README for that id (if
the taxonomy directory for it can be located)" — a lookup for
`exercises/<construct>/<type>/<id>/README.md`. -/
def findMetadata (fs : CollectorFS) (exercise_id : String) : Option (List String) :=
  fs.files.find? (isMetaFor exercise_id)

/-- Modelled from the spec: `FileCollector.collect_files` (a
`NotImplementedError` stub in `core/collector.py`).  Required notebook and
test roles raise a missing-file error naming the exercise id; optional
solution and metadata roles are recorded as absent. -/
def collect_files (fs : CollectorFS) (exercise_id : String) :
    Except String FileSet :=
  let nbPath := ["notebooks", exercise_id ++ ".ipynb"]
  let solPath := ["notebooks", "solutions", exercise_id ++ ".ipynb"]
  let testPath := ["tests", "test_" ++ exercise_id ++ ".py"]
  if !(fs.files.contains nbPath) then
    .error ("Student notebook not found for exercise: " ++ exercise_id)
  else if !(fs.files.contains testPath) then
    .error ("Test file not found for exercise: " ++ exercise_id)
  else
    .ok { notebook := nbPath
          solution := if fs.files.contains solPath then some solPath else none
          test := testPath
          metadata := findMetadata fs exercise_id }

/-! ### Template Packager (`core/packager.py`)

The workspace is a set of relative paths split into files and directories.
`safe_copy_file` (a stub in `utils/filesystem.py`) is modelled from the spec
as "safe file/directory copy (creating parent directories, overwriting
destinations)": it adds the destination file and every ancestor directory.
`Path.touch`, by contrast, does *not* create parents and raises when the
parent directory is missing.
-/

/-- The contents of a packaging workspace: relative file paths and relative
directory paths. -/
structure Workspace where
  files : List (List String)
  dirs : List (List String)
deriving DecidableEq

/-- The proper ancestors of a path (every non-empty strict prefix). -/
def pathAncestors (p : List String) : List (List String) :=
  (List.range p.length).filterMap (fun n =>
    if n = 0 then none else some (p.take n))

/-- Modelled from the spec: `safe_copy_file` (a `NotImplementedError` stub in
`utils/filesystem.py`) — copy to `dest`, creating parent directories and
overwriting the destination.  Source contents are outside the model; only the
destination's existence matters to the packager. -/
def safe_copy_file (ws : Workspace) (dest : List String) : Workspace :=
  { files := dest :: ws.files
    dirs := pathAncestors dest ++ ws.dirs }

/-- Modelled from the spec: `safe_copy_directory` (a stub in
`utils/filesystem.py`) — recursive directory copy creating parents. -/
def safe_copy_directory (ws : Workspace) (dest : List String) : Workspace :=
  { files := ws.files
    dirs := dest :: (pathAncestors dest ++ ws.dirs) }

/-- The per-exercise role paths handed to the packager (the values of the
collector's mapping; `dict.get` misses and `None` values are skipped by the
packager, so every role is optional here). -/
structure ExFiles where
  notebook : Option (List String)
  solution : Option (List String)
  test : Option (List String)
  metadata : Option (List String)
deriving DecidableEq

/-- One iteration of the copy loop of `TemplatePackager.copy_exercise_files`. -/
def copyExerciseStep (include_solutions : Bool) (ws : Workspace)
    (entry : String × ExFiles) : Workspace :=
  let exercise_id := entry.1
  let fd := entry.2
  let ws := match fd.notebook with
    | some _ => safe_copy_file ws ["notebooks", exercise_id ++ ".ipynb"]
    | none => ws
  let ws := match include_solutions, fd.solution with
    | true, some _ => safe_copy_file ws ["notebooks", "solutions", exercise_id ++ ".ipynb"]
    | _, _ => ws
  let ws := match fd.test with
    | some _ => safe_copy_file ws ["tests", "test_" ++ exercise_id ++ ".py"]
    | none => ws
  match fd.metadata with
  | some _ => safe_copy_file ws ["exercises", exercise_id, "README.md"]
  | none => ws

/-- `TemplatePackager.copy_exercise_files`. -/
def copy_exercise_files (ws : Workspace) (files : List (String × ExFiles))
    (include_solutions : Bool) : Workspace :=
  files.foldl (copyExerciseStep include_solutions) ws

/-- The source-side state consulted by `copy_template_base_files` and
`generate_readme`: which optional scaffold files exist under
`template_repo_files/`, whether that directory itself exists, whether the
repository has `tests/notebook_grader.py`, and the README template text. -/
structure TemplateSrc where
  templateDirExists : Bool
  templateFiles : List String
  graderExists : Bool
  readmeTemplate : Option String
deriving DecidableEq

/-- `Path.touch` without parent creation: raises when the parent directory
does not exist (the workspace root `[]` always exists). -/
def pathTouch (ws : Workspace) (dest : List String) : Except String Workspace :=
  let parent := dest.dropLast
  if parent = [] ∨ ws.dirs.contains parent then
    .ok { ws with files := dest :: ws.files }
  else
    .error "FileNotFoundError: touch with missing parent directory"

/-- `TemplatePackager.copy_template_base_files`: raises when
`template_repo_files/` is missing, silently skips absent optional scaffold
files, copies the grading harness into `tests/`, and finally touches
`tests/__init__.py`. -/
def copy_template_base_files (src : TemplateSrc) (ws : Workspace) :
    Except String Workspace :=
  if !src.templateDirExists then
    .error "Template files directory not found"
  else
    let ws := if src.templateFiles.contains "pyproject.toml" then
        safe_copy_file ws ["pyproject.toml"] else ws
    let ws := if src.templateFiles.contains "pytest.ini" then
        safe_copy_file ws ["pytest.ini"] else ws
    let ws := if src.templateFiles.contains ".gitignore" then
        safe_copy_file ws [".gitignore"] else ws
    let ws := if src.templateFiles.contains ".vscode" then
        safe_copy_directory ws [".vscode"] else ws
    let ws := if src.templateFiles.contains ".github" then
        safe_copy_directory ws [".github"] else ws
    let ws := if src.templateFiles.contains "INSTRUCTIONS.md" then
        safe_copy_file ws ["INSTRUCTIONS.md"] else ws
    let ws := if src.graderExists then
        safe_copy_file ws ["tests", "notebook_grader.py"] else ws
    pathTouch ws ["tests", "__init__.py"]

/-- `TemplatePackager.generate_readme`: substitute the two placeholders in the
template (or the two-line fallback) and write `README.md` at the workspace
root.  Text content is outside the workspace model; only the file's existence
matters downstream. -/
def generate_readme (ws : Workspace) : Workspace :=
  { ws with files := ["README.md"] :: ws.files }

/-- `TemplatePackager.validate_package`: the fixed required files and required
directories all exist. -/
def validate_package (ws : Workspace) : Bool :=
  ws.files.contains ["pyproject.toml"] &&
  ws.files.contains ["pytest.ini"] &&
  ws.files.contains ["README.md"] &&
  ws.files.contains ["tests", "notebook_grader.py"] &&
  ws.dirs.contains ["notebooks"] &&
  ws.dirs.contains ["tests"]

/-! ### External host client (`core/github.py`) -/

/-- Python truthiness of an `Optional[str]`: `None` and `""` are falsy. -/
def strTruthy : Option String → Bool
  | none => false
  | some s => !(s = "")

/-- `GitHubClient.build_create_command`: deterministic construction of the
`gh repo create` argument list. -/
def build_create_command (repo_name : String) (public : Bool)
    (template_repo org description source_path : Option String) : List String :=
  ["gh", "repo", "create"]
    ++ [if strTruthy org then org.getD "" ++ "/" ++ repo_name else repo_name]
    ++ [if public then "--public" else "--private"]
    ++ (if strTruthy template_repo then ["--template", template_repo.getD ""] else [])
    ++ (if strTruthy description then ["--description", description.getD ""] else [])
    ++ (if strTruthy source_path then ["--source", source_path.getD "", "--push"] else [])

/-- The result dictionary of `GitHubClient.execute_command` /
`create_repository` / `mark_repository_as_template` (absent keys are
`none`). -/
structure GhResult where
  success : Bool
  output : Option String
  error : Option String
  returncode : Option Int
  dryRun : Bool
  message : Option String
deriving DecidableEq

/-- A `GhResult` with only `success` set (all optional keys absent). -/
def mkGhResult (success : Bool) : GhResult :=
  { success := success, output := none, error := none, returncode := none,
    dryRun := false, message := none }

/-- The external effects consulted by one `create_repository` call: whether
`git init` raises, whether `commit_files` raises, the result of executing the
built create command, and the result of the follow-up
`mark_repository_as_template`. -/
structure CreateRepoEnv where
  gitInitErr : Option String
  commitErr : Option String
  execResult : List String → GhResult
  markResult : GhResult

/-- `GitHubClient.create_repository`: dry-run short-circuit, optional git
bootstrap, create-command execution, and the follow-up template marking whose
failure collapses the overall result to failure. -/
def create_repository (env : CreateRepoEnv) (dry_run : Bool)
    (repo_name : String) (workspace : String) (public template : Bool)
    (template_repo org description : Option String)
    (skip_git_operations : Bool) : Except String GhResult :=
  if dry_run then
    .ok { success := true, output := none, error := none, returncode := none,
          dryRun := true, message := some "Dry run - no repository created" }
  else
    match (if skip_git_operations then none else env.gitInitErr) with
    | some e => .error e
    | none =>
      match (if skip_git_operations then none else env.commitErr) with
      | some e => .error e
      | none =>
        let cmd := build_create_command repo_name public template_repo org
          description (some workspace)
        let result := env.execResult cmd
        if result.success && template then
          let tr := env.markResult
          if !tr.success then
            .ok { success := false, output := tr.output,
                  error := some (tr.error.getD "Failed to mark repository as template"),
                  returncode := tr.returncode, dryRun := false, message := none }
          else .ok result
        else .ok result

/-! ### Orchestrator (`cli.py`)

External effects (subprocess invocations of the host CLI, repository-creation
attempts, workspace cleanup, output-directory deletion and copying) are
recorded in an explicit event trace; their outcomes are supplied by oracles.
-/

inductive Event where
  | ghCall
  | createCall (skipGit : Bool)
  | cleanupCall
  | rmtreeOutput
  | copytreeOutput
deriving DecidableEq

/-- An event is an invocation of the external host CLI (`gh`): the
prerequisite probes and the repository-creation call itself. -/
def isHostInvocation : Event → Bool
  | .ghCall => true
  | .createCall _ => true
  | _ => false

def isCreateCall : Event → Bool
  | .createCall _ => true
  | _ => false

def isCleanup : Event → Bool
  | .cleanupCall => true
  | _ => false

/-- `_is_integration_permission_error`: the lowered error text contains both
the integration-permission pattern and `createRepository`. -/
def isIntegrationPermissionError : Option String → Bool
  | none => false
  | some error =>
    let message := lowerChars error.data
    isSubChars "resource not accessible by integration".data message &&
      isSubChars "createrepository".data message

/-- `_github_permission_hint` (the detected token environment variable is a
parameter standing for `_detect_auth_token_env()`). -/
def githubPermissionHint (error : Option String) (envKey : Option String) :
    Option String :=
  match error with
  | none => none
  | some error =>
    let message := lowerChars error.data
    if isSubChars "resource not accessible by integration".data message &&
        isSubChars "createrepository".data message then
      let base := "The current GitHub authentication token cannot create repositories. Run `gh auth login` with a user account/token that has the `repo` scope or provide a personal access token via GH_TOKEN."
      some (match envKey with
        | some "GITHUB_TOKEN" =>
          base ++ " It looks like GITHUB_TOKEN is set (e.g., from GitHub Apps or CI). Unset GITHUB_TOKEN before running `gh auth login` so you can authenticate as a user with repo permissions."
        | some "GH_TOKEN" =>
          base ++ " Ensure GH_TOKEN references a personal access token with the `repo` scope."
        | _ => base)
    else none

/-- `_github_already_exists_hint`. -/
def githubAlreadyExistsHint (error : Option String) (repo_name : String) :
    Option String :=
  match error with
  | none => none
  | some error =>
    let message := lowerChars error.data
    if isSubChars "name already exists".data message ||
        isSubChars "already exists".data message then
      some ("A repository named '" ++ repo_name ++ "' already exists. Either delete the existing repository or choose a different name.")
    else none

/-- The external effects consulted by the orchestrator's creation loop
`_create_github_repo`, indexed by loop iteration: the prerequisite check
outcome, the `create_repository` outcome (`.error` = raised exception), the
scope re-check, the token environment variable as detected initially and
after re-authentication, and the combined consent-and-relogin outcome of
`_offer_unset_token_and_reauth`. -/
structure CreateEnv where
  repoName : String
  prereqErr : Nat → Option String
  createRes : Nat → Except String GhResult
  scopesHasRepo : Nat → Bool
  envKey0 : Option String
  envKeyAfter : Option String
  consentRelogin : Bool

/-- `_should_retry_with_reauth`: token variable present, not yet
re-authenticated, integration-permission pattern matched, scopes
insufficient, and the user consented to a successful re-login. -/
def shouldRetryWithReauth (env : CreateEnv) (attempt : Nat) (error_msg : String)
    (envKey : Option String) (alreadyReauthed : Bool) : Bool :=
  match envKey with
  | none => false
  | some _ =>
    if alreadyReauthed then false
    else if !isIntegrationPermissionError (some error_msg) then false
    else !(env.scopesHasRepo attempt) && env.consentRelogin

/-- The terminal failure of one `_create_github_repo` loop iteration: the
raw error text decorated with the permission hint or, failing that, the
already-exists hint. -/
def createRepoFailResult (env : CreateEnv) (error_msg : String)
    (envKey : Option String) : Except String (Bool × Option String) :=
  .ok (false, some
    (match githubPermissionHint (some error_msg) envKey with
     | some hint => error_msg ++ "\n\n" ++ hint
     | none =>
       match githubAlreadyExistsHint (some error_msg) env.repoName with
       | some hint => error_msg ++ "\n\n" ++ hint
       | none => error_msg))

/-- The `while True` loop of `_create_github_repo`.  The Python loop repeats
only after setting `already_reauthenticated = True`, and
`_should_retry_with_reauth` returns `False` immediately (before any side
effect) once that flag is set; the flag is represented by a budget
(`budget = 0` ↔ already re-authenticated), which makes the recursion
structural: in the `budget = 0` arm the retry test is identically false and
the loop exits with the hinted failure.  Each iteration re-checks
prerequisites (`ghCall`), then attempts creation with
`skip_git_operations = not first_attempt` (`createCall`). -/
def createRepoLoop (env : CreateEnv) :
    Nat → Nat → Bool → Option String → Except String (Bool × Option String) × List Event
  | budget, attempt, firstAttempt, envKey =>
    match env.prereqErr attempt with
    | some e => (.ok (false, some e), [.ghCall])
    | none =>
      match env.createRes attempt with
      | .error exc => (.error exc, [.ghCall, .createCall (!firstAttempt)])
      | .ok res =>
        if res.success then
          (.ok (true, none), [.ghCall, .createCall (!firstAttempt)])
        else
          match budget with
          | 0 =>
            (createRepoFailResult env (res.error.getD "Unknown error") envKey,
              [.ghCall, .createCall (!firstAttempt)])
          | b + 1 =>
            if shouldRetryWithReauth env attempt (res.error.getD "Unknown error")
                envKey false then
              ((createRepoLoop env b (attempt + 1) false env.envKeyAfter).1,
                [Event.ghCall, Event.createCall (!firstAttempt)] ++
                  Event.ghCall ::
                    (createRepoLoop env b (attempt + 1) false env.envKeyAfter).2)
            else
              (createRepoFailResult env (res.error.getD "Unknown error") envKey,
                [.ghCall, .createCall (!firstAttempt)])

/-- `_create_github_repo`: enter the loop with one re-authentication
available, at attempt 0, on a first attempt, with the initially detected
token variable. -/
def create_github_repo (env : CreateEnv) :
    Except String (Bool × Option String) × List Event :=
  createRepoLoop env 1 0 true env.envKey0

/-- The external effects consulted by `create_command` /
`_execute_template_creation`: argument flags, the selection outcome, the
collection outcome, the `_build_template_package` outcome (`.error` = raised
exception, `.ok b` = the `validate_package` verdict), the creation-loop
environment, and the state of the output directory. -/
structure CliEnv where
  dryRun : Bool
  outputDir : Option String
  repoName : String
  selectResult : Except String (List String)
  collectErr : Option String
  buildResult : Except String Bool
  createEnv : CreateEnv
  outputExists : Bool
  copytreeErr : Option String

/-- `_handle_output_directory`: unconditionally `rmtree` a pre-existing
output path, then `copytree` the workspace there; on a copy error return 1
*preserving* the workspace; on success clean up the ephemeral workspace. -/
def handleOutputDirectory (env : CliEnv) : Nat × List Event :=
  let evs := if env.outputExists then [Event.rmtreeOutput] else []
  match env.copytreeErr with
  | some _ => (1, evs)
  | none => (0, evs ++ [Event.copytreeOutput, Event.cleanupCall])

/-- `_finalize_workspace`: cleanup, or redirection to the output directory. -/
def finalizeWorkspace (env : CliEnv) : Nat × List Event :=
  match env.outputDir with
  | none => (0, [Event.cleanupCall])
  | some _ => handleOutputDirectory env

/-- `_handle_repository_creation`: dry-run short-circuits with exit 0 before
any host interaction; otherwise run the creation loop, cleaning up on
failure. -/
def handleRepositoryCreation (env : CliEnv) : Except String Nat × List Event :=
  if env.dryRun then (.ok 0, [])
  else
    match create_github_repo env.createEnv with
    | (.error exc, evs) => (.error exc, evs)
    | (.ok (true, _), evs) => (.ok 0, evs)
    | (.ok (false, _), evs) => (.ok 1, evs ++ [Event.cleanupCall])

/-- `_execute_template_creation`: build and validate the package, create the
repository (or print dry-run intent), finalize; any exception is caught at
this boundary and triggers cleanup. -/
def executeTemplateCreation (env : CliEnv) : Nat × List Event :=
  match env.buildResult with
  | .error _ => (1, [Event.cleanupCall])
  | .ok false => (1, [Event.cleanupCall])
  | .ok true =>
    match handleRepositoryCreation env with
    | (.error _, evs) => (1, evs ++ [Event.cleanupCall])
    | (.ok r, evs) =>
      if r ≠ 0 then (r, evs)
      else
        let f := finalizeWorkspace env
        (f.1, evs ++ f.2)

/-- `create_command`: validate the repository slug, select exercises, collect
files, create the workspace, then execute template creation. -/
def create_command (env : CliEnv) : Nat × List Event :=
  if !validate_repo_name env.repoName then (1, [])
  else
    match env.selectResult with
    | .error _ => (1, [])
    | .ok exercises =>
      if exercises = [] then (1, [])
      else
        match env.collectErr with
        | some _ => (1, [])
        | none => executeTemplateCreation env

/-! ### Helper lemmas -/

theorem contains_eq_true_of_mem {α : Type} [DecidableEq α] {l : List α} {a : α}
    (h : a ∈ l) : l.contains a = true := by simpa using h

theorem mem_of_contains_eq_true {α : Type} [DecidableEq α] {l : List α} {a : α}
    (h : l.contains a = true) : a ∈ l := by simpa using h

theorem contains_eq_false_of_not_mem {α : Type} [DecidableEq α] {l : List α}
    {a : α} (h : a ∉ l) : l.contains a = false := by
  cases hc : l.contains a with
  | false => rfl
  | true => exact absurd (mem_of_contains_eq_true hc) h

theorem isMetaFor_shape {exercise_id : String} {p : List String}
    (h : isMetaFor exercise_id p = true) :
    ∃ c t, p = ["exercises", c, t, exercise_id, "README.md"] := by
  match p with
  | [] => simp [isMetaFor] at h
  | [_] => simp [isMetaFor] at h
  | [_, _] => simp [isMetaFor] at h
  | [_, _, _] => simp [isMetaFor] at h
  | [_, _, _, _] => simp [isMetaFor] at h
  | [a, c, t, e, b] =>
    simp only [isMetaFor, Bool.and_eq_true, decide_eq_true_eq] at h
    obtain ⟨⟨ha, hb⟩, he⟩ := h
    exact ⟨c, t, by rw [ha, hb, he]⟩
  | _ :: _ :: _ :: _ :: _ :: _ :: _ => simp [isMetaFor] at h

/-! ### Claim theorems -/

/-- C1: for every exercise id, `collect_files` fails with a missing-file error
whose message contains the id when the required notebook
(`notebooks/<id>.ipynb`) or test file (`tests/test_<id>.py`) is absent, and
succeeds with the optional solution / metadata roles mapped to an absent value
when only those are absent. -/
theorem C1_collect_files_required_roles (fs : CollectorFS) (exercise_id : String) :
    ((["notebooks", exercise_id ++ ".ipynb"] ∉ fs.files ∨
      ["tests", "test_" ++ exercise_id ++ ".py"] ∉ fs.files) →
      ∃ e, collect_files fs exercise_id = .error e ∧ exercise_id.data <:+: e.data) ∧
    (["notebooks", exercise_id ++ ".ipynb"] ∈ fs.files →
      ["tests", "test_" ++ exercise_id ++ ".py"] ∈ fs.files →
      ∃ r, collect_files fs exercise_id = .ok r ∧
        r.notebook = ["notebooks", exercise_id ++ ".ipynb"] ∧
        r.test = ["tests", "test_" ++ exercise_id ++ ".py"] ∧
        (["notebooks", "solutions", exercise_id ++ ".ipynb"] ∉ fs.files →
          r.solution = none) ∧
        ((∀ c t, ["exercises", c, t, exercise_id, "README.md"] ∉ fs.files) →
          r.metadata = none)) := by
  constructor
  · intro hmiss
    by_cases hnb : ["notebooks", exercise_id ++ ".ipynb"] ∈ fs.files
    · have htest : ["tests", "test_" ++ exercise_id ++ ".py"] ∉ fs.files := by
        rcases hmiss with h | h
        · exact absurd hnb h
        · exact h
      refine ⟨"Test file not found for exercise: " ++ exercise_id, ?_, ?_⟩
      · simp [collect_files, hnb, htest]
      · exact List.IsSuffix.isInfix
          ⟨"Test file not found for exercise: ".data, (String.data_append _ _).symm⟩
    · refine ⟨"Student notebook not found for exercise: " ++ exercise_id, ?_, ?_⟩
      · simp [collect_files, hnb]
      · exact List.IsSuffix.isInfix
          ⟨"Student notebook not found for exercise: ".data, (String.data_append _ _).symm⟩
  · intro hnb htest
    refine ⟨{ notebook := ["notebooks", exercise_id ++ ".ipynb"]
              solution := if fs.files.contains
                  ["notebooks", "solutions", exercise_id ++ ".ipynb"] = true then
                  some ["notebooks", "solutions", exercise_id ++ ".ipynb"] else none
              test := ["tests", "test_" ++ exercise_id ++ ".py"]
              metadata := findMetadata fs exercise_id }, ?_, rfl, rfl, ?_, ?_⟩
    · simp [collect_files, hnb, htest]
    · intro hsol
      simp [hsol]
    · intro hmeta
      simp only [findMetadata, List.find?_eq_none]
      intro p hp hfor
      obtain ⟨c, t, rfl⟩ := isMetaFor_shape hfor
      exact hmeta c t hp

/-- Witness for C1 at a concrete collector state: an id whose test file is
absent yields an error containing the id, and an id with notebook and test
present but no solution or metadata succeeds with those roles absent. -/
theorem C1_witness :
    (["notebooks", "ex002_b" ++ ".ipynb"] ∈
        (CollectorFS.mk [["notebooks", "ex001_a.ipynb"], ["notebooks", "ex002_b.ipynb"],
          ["tests", "test_ex002_b.py"]]).files ∧
      ∃ r, collect_files
          (CollectorFS.mk [["notebooks", "ex001_a.ipynb"], ["notebooks", "ex002_b.ipynb"],
            ["tests", "test_ex002_b.py"]]) "ex002_b" = .ok r ∧
        r.solution = none ∧ r.metadata = none) ∧
    ∃ e, collect_files
        (CollectorFS.mk [["notebooks", "ex001_a.ipynb"], ["notebooks", "ex002_b.ipynb"],
          ["tests", "test_ex002_b.py"]]) "ex001_a" = .error e ∧
      "ex001_a".data <:+: e.data := by
  constructor
  · refine ⟨by decide, ?_⟩
    obtain ⟨r, hr, -, -, hsol, hmeta⟩ :=
      (C1_collect_files_required_roles
        (CollectorFS.mk [["notebooks", "ex001_a.ipynb"], ["notebooks", "ex002_b.ipynb"],
          ["tests", "test_ex002_b.py"]]) "ex002_b").2 (by decide) (by decide)
    exact ⟨r, hr, hsol (by decide), hmeta (by intro c t hmem; simp at hmem)⟩
  · exact (C1_collect_files_required_roles
      (CollectorFS.mk [["notebooks", "ex001_a.ipynb"], ["notebooks", "ex002_b.ipynb"],
        ["tests", "test_ex002_b.py"]]) "ex001_a").1 (Or.inr (by decide))

/-- C6: when the create command succeeds, template marking is requested, and
the follow-up mark-repository-as-template command fails, `create_repository`
returns a failure result carrying the follow-up's error. -/
theorem C6_mark_template_failure_collapses
    (env : CreateRepoEnv) (repo_name workspace : String) (public : Bool)
    (template_repo org description : Option String) (skip_git_operations : Bool)
    (hgit : skip_git_operations = true ∨ (env.gitInitErr = none ∧ env.commitErr = none))
    (hexec : (env.execResult (build_create_command repo_name public template_repo
      org description (some workspace))).success = true)
    (hmark : env.markResult.success = false) :
    ∃ r, create_repository env false repo_name workspace public true template_repo
        org description skip_git_operations = .ok r ∧
      r.success = false ∧
      r.error = some (env.markResult.error.getD "Failed to mark repository as template") ∧
      ∀ e, env.markResult.error = some e → r.error = some e := by
  refine ⟨{ success := false, output := env.markResult.output,
            error := some (env.markResult.error.getD "Failed to mark repository as template"),
            returncode := env.markResult.returncode, dryRun := false,
            message := none }, ?_, rfl, rfl, ?_⟩
  · rcases hgit with hskip | ⟨h1, h2⟩
    · subst hskip
      simp [create_repository, hexec, hmark]
    · simp [create_repository, h1, h2, hexec, hmark]
  · intro e he
    simp [he]

/-- Witness for C6: a concrete environment where creation succeeds but the
template-marking follow-up fails with a permissions error. -/
theorem C6_witness :
    ∃ r, create_repository
        { gitInitErr := none, commitErr := none,
          execResult := fun _ => mkGhResult true,
          markResult := { success := false, output := none,
                          error := some "HTTP 403: forbidden", returncode := some 1,
                          dryRun := false, message := none } }
        false "test-repo" "/tmp/ws" true true none none none false = .ok r ∧
      r.success = false ∧ r.error = some "HTTP 403: forbidden" := by
  obtain ⟨r, hr, hs, -, hcarry⟩ :=
    C6_mark_template_failure_collapses
      { gitInitErr := none, commitErr := none,
        execResult := fun _ => mkGhResult true,
        markResult := { success := false, output := none,
                        error := some "HTTP 403: forbidden", returncode := some 1,
                        dryRun := false, message := none } }
      "test-repo" "/tmp/ws" true none none none false
      (Or.inr ⟨rfl, rfl⟩) rfl rfl
  exact ⟨r, hr, hs, hcarry "HTTP 403: forbidden" rfl⟩

/-- C10: whenever an output directory is specified and a directory already
exists at that path, the orchestrator's finalization unconditionally deletes
the pre-existing directory (the first recorded event is the recursive removal
of the output path, before any copy). -/
theorem C10_output_redirection_deletes_existing
    (env : CliEnv) (d : String) (hdir : env.outputDir = some d)
    (hex : env.outputExists = true) :
    (finalizeWorkspace env).2.head? = some Event.rmtreeOutput := by
  unfold finalizeWorkspace
  rw [hdir]
  unfold handleOutputDirectory
  rw [hex]
  cases env.copytreeErr <;> rfl

/-- A creation-loop environment with trivially successful oracles, used by
concrete orchestrator states in witnesses and counterexamples. -/
def benignCreateEnv : CreateEnv :=
  { repoName := "test-repo", prereqErr := fun _ => none,
    createRes := fun _ => .ok (mkGhResult true),
    scopesHasRepo := fun _ => true, envKey0 := none, envKeyAfter := none,
    consentRelogin := false }

/-- Witness for C10: a concrete run with `--output-dir` pointing at an
existing directory records its deletion first. -/
theorem C10_witness :
    ({ dryRun := true, outputDir := some "out", repoName := "my-repo",
       selectResult := .ok ["ex001_a"], collectErr := none,
       buildResult := .ok true, createEnv := benignCreateEnv,
       outputExists := true, copytreeErr := none : CliEnv }.outputDir = some "out") ∧
    (finalizeWorkspace
      { dryRun := true, outputDir := some "out", repoName := "my-repo",
        selectResult := .ok ["ex001_a"], collectErr := none,
        buildResult := .ok true, createEnv := benignCreateEnv,
        outputExists := true, copytreeErr := none }).2.head? =
      some Event.rmtreeOutput :=
  ⟨rfl, C10_output_redirection_deletes_existing _ "out" rfl rfl⟩

/-- C3: for every syntactically valid glob pattern, `select_by_pattern`
returns (without raising) the sorted list of matching notebook stems, and an
empty match set — in particular `ex999*` on a repository with no matching
ids — is the empty list, not an error. -/
theorem C3_pattern_selection_total :
    (∀ (fs : SelectorFS) (pattern : String),
      validate_notebook_pattern pattern = true →
      select_by_pattern fs pattern =
        .ok (pySorted ((get_all_notebooks fs).filter (fun nb => fnmatchB nb pattern))) ∧
      ∃ l, select_by_pattern fs pattern = .ok l ∧ List.Sorted pyLe l) ∧
    (∀ fs : SelectorFS,
      (∀ nb ∈ get_all_notebooks fs, fnmatchB nb "ex999*" = false) →
      select_by_pattern fs "ex999*" = .ok []) := by
  constructor
  · intro fs pattern hval
    have heq : select_by_pattern fs pattern =
        .ok (pySorted ((get_all_notebooks fs).filter (fun nb => fnmatchB nb pattern))) := by
      simp [select_by_pattern, hval]
    exact ⟨heq, _, heq, pySorted_sorted _⟩
  · intro fs hnone
    have hval : validate_notebook_pattern "ex999*" = true := by decide
    have hfil : (get_all_notebooks fs).filter (fun nb => fnmatchB nb "ex999*") = [] :=
      List.filter_eq_nil_iff.mpr (fun a ha => by simp [hnone a ha])
    simp [select_by_pattern, hval, hfil, pySorted, List.insertionSort]

/-- Witness for C3 at a concrete repository: `ex00*` matches and is sorted,
and `ex999*` yields the empty list. -/
theorem C3_witness :
    (∃ l, select_by_pattern (SelectorFS.mk ["ex002_b.ipynb", "ex001_a.ipynb"] []) "ex00*"
        = .ok l ∧ List.Sorted pyLe l) ∧
    select_by_pattern (SelectorFS.mk ["ex002_b.ipynb", "ex001_a.ipynb"] []) "ex999*"
      = .ok [] := by
  constructor
  · exact (C3_pattern_selection_total.1
      (SelectorFS.mk ["ex002_b.ipynb", "ex001_a.ipynb"] []) "ex00*" (by decide)).2
  · exact C3_pattern_selection_total.2
      (SelectorFS.mk ["ex002_b.ipynb", "ex001_a.ipynb"] []) (by decide)

/-- The membership structure of `build_create_command`'s result. -/
theorem mem_build_create_command {x repo_name : String} {public : Bool}
    {template_repo org description source_path : Option String} :
    x ∈ build_create_command repo_name public template_repo org description source_path ↔
      x = "gh" ∨ x = "repo" ∨ x = "create" ∨
      x = (if strTruthy org then org.getD "" ++ "/" ++ repo_name else repo_name) ∨
      x = (if public then "--public" else "--private") ∨
      (strTruthy template_repo = true ∧ (x = "--template" ∨ x = template_repo.getD "")) ∨
      (strTruthy description = true ∧ (x = "--description" ∨ x = description.getD "")) ∨
      (strTruthy source_path = true ∧
        (x = "--source" ∨ x = source_path.getD "" ∨ x = "--push")) := by
  cases htr : strTruthy template_repo <;> cases hd : strTruthy description <;>
    cases hsp : strTruthy source_path <;>
      simp [build_create_command, htr, hd, hsp, or_assoc]

/-- The repository-name token of `build_create_command` sits at index 3. -/
theorem build_create_command_nameTok {repo_name : String} {public : Bool}
    {template_repo org description source_path : Option String} :
    (build_create_command repo_name public template_repo org description source_path)[3]?
      = some (if strTruthy org then org.getD "" ++ "/" ++ repo_name else repo_name) := by
  unfold build_create_command
  simp [List.append_assoc, List.cons_append, List.singleton_append,
    List.getElem?_cons_succ, List.getElem?_cons_zero]

/-- Counterexample to C7 as stated: with `description="--push"` and no
`source_path`, the token `"--push"` appears without `"--source"` (the pair is
broken by a colliding argument value), and with `org=""` supplied the
repository-name token is the bare name, not `"<org>/<repo_name>"`. -/
theorem C7_counterexample :
    ("--push" ∈ build_create_command "test-repo" true none none (some "--push") none ∧
      "--source" ∉ build_create_command "test-repo" true none none (some "--push") none) ∧
    ((build_create_command "test-repo" true none (some "") none none)[3]?
        = some "test-repo" ∧
      "/test-repo" ∉ build_create_command "test-repo" true none (some "") none none) := by
  decide

/-- C7 (amended): provided the name token and the optional template-repo and
description values are not themselves the literal flag tokens, the argument
list carries `--source <path> --push` as a contiguous suffix exactly when a
non-empty `source_path` is supplied (never just one of the pair), and the
repository-name token at index 3 is `<org>/<repo_name>` exactly when a
non-empty `org` is supplied. -/
theorem C7_build_command_source_push_coupling
    (repo_name : String) (public : Bool)
    (template_repo org description source_path : Option String)
    (hnametok :
      (if strTruthy org then org.getD "" ++ "/" ++ repo_name else repo_name) ≠ "--source" ∧
      (if strTruthy org then org.getD "" ++ "/" ++ repo_name else repo_name) ≠ "--push")
    (htr : template_repo.getD "" ≠ "--source" ∧ template_repo.getD "" ≠ "--push")
    (hdesc : description.getD "" ≠ "--source" ∧ description.getD "" ≠ "--push") :
    (∀ s, source_path = some s → s ≠ "" →
      ∃ pre, build_create_command repo_name public template_repo org description source_path
        = pre ++ ["--source", s, "--push"]) ∧
    ((source_path = none ∨ source_path = some "") →
      "--source" ∉ build_create_command repo_name public template_repo org description source_path ∧
      "--push" ∉ build_create_command repo_name public template_repo org description source_path) ∧
    (∀ o, org = some o → o ≠ "" →
      (build_create_command repo_name public template_repo org description source_path)[3]?
        = some (o ++ "/" ++ repo_name)) ∧
    ((org = none ∨ org = some "") →
      (build_create_command repo_name public template_repo org description source_path)[3]?
        = some repo_name) := by
  refine ⟨?_, ?_, ?_, ?_⟩
  · intro s hs hne
    refine ⟨["gh", "repo", "create"]
      ++ [if strTruthy org then org.getD "" ++ "/" ++ repo_name else repo_name]
      ++ [if public then "--public" else "--private"]
      ++ (if strTruthy template_repo then ["--template", template_repo.getD ""] else [])
      ++ (if strTruthy description then ["--description", description.getD ""] else []), ?_⟩
    subst hs
    have hst : strTruthy (some s) = true := by simp [strTruthy, hne]
    simp [build_create_command, hst, List.append_assoc]
  · intro hsp
    have hspf : strTruthy source_path = false := by
      rcases hsp with h | h <;> simp [h, strTruthy]
    constructor
    · intro hmem
      rw [mem_build_create_command] at hmem
      rcases hmem with h | h | h | h | h | ⟨-, h | h⟩ | ⟨-, h | h⟩ | ⟨hs2, -⟩
      · exact absurd h (by decide)
      · exact absurd h (by decide)
      · exact absurd h (by decide)
      · exact hnametok.1 h.symm
      · cases hp : public <;> rw [hp] at h <;> exact absurd h (by decide)
      · exact absurd h (by decide)
      · exact htr.1 h.symm
      · exact absurd h (by decide)
      · exact hdesc.1 h.symm
      · rw [hspf] at hs2; exact absurd hs2 (by decide)
    · intro hmem
      rw [mem_build_create_command] at hmem
      rcases hmem with h | h | h | h | h | ⟨-, h | h⟩ | ⟨-, h | h⟩ | ⟨hs2, -⟩
      · exact absurd h (by decide)
      · exact absurd h (by decide)
      · exact absurd h (by decide)
      · exact hnametok.2 h.symm
      · cases hp : public <;> rw [hp] at h <;> exact absurd h (by decide)
      · exact absurd h (by decide)
      · exact htr.2 h.symm
      · exact absurd h (by decide)
      · exact hdesc.2 h.symm
      · rw [hspf] at hs2; exact absurd hs2 (by decide)
  · intro o ho hne
    rw [build_create_command_nameTok, ho]
    simp [strTruthy, hne]
  · intro h
    rw [build_create_command_nameTok]
    rcases h with h | h <;> simp [h, strTruthy]

/-- Witness for C7 (amended) at the spec's own examples. -/
theorem C7_witness :
    ((build_create_command "test-repo" true none (some "my-org") none none)[3]?
        = some "my-org/test-repo") ∧
    (∃ pre, build_create_command "test-repo" true none (some "my-org") none
        (some "/tmp/ws") = pre ++ ["--source", "/tmp/ws", "--push"]) ∧
    ("--source" ∉ build_create_command "test-repo" true none (some "my-org") none none ∧
      "--push" ∉ build_create_command "test-repo" true none (some "my-org") none none) := by
  have h1 := C7_build_command_source_push_coupling "test-repo" true none
    (some "my-org") none none (by decide) (by decide) (by decide)
  have h2 := C7_build_command_source_push_coupling "test-repo" true none
    (some "my-org") none (some "/tmp/ws") (by decide) (by decide) (by decide)
  exact ⟨h1.2.2.1 "my-org" rfl (by decide), h2.1 "/tmp/ws" rfl (by decide),
    h1.2.1 (Or.inl rfl)⟩

/-- On success each scan-based selector yields a sorted deduplicated list. -/
theorem sorted_nodup_pySorted_dedup (x : List String) :
    List.Sorted pyLe (pySorted x.dedup) ∧ (pySorted x.dedup).Nodup :=
  ⟨pySorted_sorted _, ((pySorted_perm _).nodup_iff).mpr (List.nodup_dedup x)⟩

/-- C8 (amended): every selection operation returns, on success, a sorted
sequence; the construct, type, construct∩type and pattern operations (the
latter given distinct notebook stems) additionally return no duplicates,
while `select_by_notebooks` returns a permutation of the requested id list —
preserving its multiplicities — and is therefore duplicate-free exactly when
the request is. -/
theorem C8_selection_sorted_nodup :
    (∀ (fs : SelectorFS) (cs l : List String), select_by_construct fs cs = .ok l →
      List.Sorted pyLe l ∧ l.Nodup) ∧
    (∀ (fs : SelectorFS) (ts l : List String), select_by_type fs ts = .ok l →
      List.Sorted pyLe l ∧ l.Nodup) ∧
    (∀ (fs : SelectorFS) (cs ts l : List String),
      select_by_construct_and_type fs cs ts = .ok l →
      List.Sorted pyLe l ∧ l.Nodup) ∧
    (∀ (fs : SelectorFS) (p : String) (l : List String),
      select_by_pattern fs p = .ok l →
      List.Sorted pyLe l ∧ ((get_all_notebooks fs).Nodup → l.Nodup)) ∧
    (∀ (fs : SelectorFS) (nbs l : List String), select_by_notebooks fs nbs = .ok l →
      List.Sorted pyLe l ∧ l.Perm nbs ∧ (l.Nodup ↔ nbs.Nodup)) := by
  refine ⟨?_, ?_, ?_, ?_, ?_⟩
  · intro fs cs l h
    unfold select_by_construct at h
    split at h
    · simp at h
    · split at h
      · simp at h
      · rw [Except.ok.injEq] at h
        subst h
        exact sorted_nodup_pySorted_dedup _
  · intro fs ts l h
    unfold select_by_type at h
    split at h
    · simp at h
    · split at h
      · simp at h
      · rw [Except.ok.injEq] at h
        subst h
        exact sorted_nodup_pySorted_dedup _
  · intro fs cs ts l h
    unfold select_by_construct_and_type at h
    split at h
    · simp at h
    · split at h
      · simp at h
      · rw [Except.ok.injEq] at h
        subst h
        exact sorted_nodup_pySorted_dedup _
  · intro fs p l h
    unfold select_by_pattern at h
    split at h
    · simp at h
    · rw [Except.ok.injEq] at h
      subst h
      exact ⟨pySorted_sorted _, fun hall =>
        ((pySorted_perm _).nodup_iff).mpr (hall.filter _)⟩
  · intro fs nbs l h
    unfold select_by_notebooks at h
    split at h
    · simp at h
    · split at h
      · simp at h
      · rw [Except.ok.injEq] at h
        subst h
        exact ⟨pySorted_sorted _, pySorted_perm _, (pySorted_perm _).nodup_iff⟩

/-- Counterexample to C8 as stated: `select_by_notebooks` does not
deduplicate — a duplicated request id survives into the result. -/
theorem C8_counterexample :
    select_by_notebooks (SelectorFS.mk ["ex001_a.ipynb"] []) ["ex001_a", "ex001_a"]
      = .ok ["ex001_a", "ex001_a"] ∧
    ¬ (["ex001_a", "ex001_a"] : List String).Nodup :=
  ⟨rfl, by decide⟩

/-- Witness for C8 at concrete states: a construct selection over an
unsorted directory scan comes back sorted and duplicate-free, and an explicit
notebook selection comes back as a sorted permutation of the request. -/
theorem C8_witness :
    (List.Sorted pyLe ["ex001_a", "ex002_b"] ∧
      (["ex001_a", "ex002_b"] : List String).Nodup) ∧
    (["ex001_a", "ex002_b"] : List String).Perm ["ex002_b", "ex001_a"] :=
  ⟨C8_selection_sorted_nodup.1
      (SelectorFS.mk []
        [ConstructEntry.mk "sequence" true
          [TypeEntry.mk "modify" true
            [ExEntry.mk "ex002_b" true, ExEntry.mk "ex001_a" true]]])
      ["sequence"] ["ex001_a", "ex002_b"] rfl,
    (C8_selection_sorted_nodup.2.2.2.2
      (SelectorFS.mk ["ex001_a.ipynb", "ex002_b.ipynb"] [])
      ["ex002_b", "ex001_a"] ["ex001_a", "ex002_b"] rfl).2.1⟩

/-- The creation loop attempts `create_repository` at most once more than its
re-authentication budget allows. -/
theorem createRepoLoop_createCall_le (env : CreateEnv) :
    ∀ (budget attempt : Nat) (fa : Bool) (ek : Option String),
      ((createRepoLoop env budget attempt fa ek).2.countP isCreateCall) ≤ budget + 1 := by
  intro budget
  induction budget with
  | zero =>
    intro attempt fa ek
    rw [createRepoLoop]
    cases hp : env.prereqErr attempt with
    | some e => simp [List.countP_cons, isCreateCall]
    | none =>
      cases hc : env.createRes attempt with
      | error exc => simp [List.countP_cons, isCreateCall]
      | ok res =>
        cases hs : res.success <;>
          simp [hs, List.countP_cons, isCreateCall]
  | succ b ih =>
    intro attempt fa ek
    rw [createRepoLoop]
    cases hp : env.prereqErr attempt with
    | some e => simp [List.countP_cons, isCreateCall]
    | none =>
      cases hc : env.createRes attempt with
      | error exc => simp [List.countP_cons, isCreateCall]
      | ok res =>
        cases hs : res.success with
        | true => simp [hs, List.countP_cons, isCreateCall]
        | false =>
          cases hr : shouldRetryWithReauth env attempt (res.error.getD "Unknown error")
              ek false with
          | false => simp [hs, hr, List.countP_cons, isCreateCall]
          | true =>
            have hcount := ih (attempt + 1) false env.envKeyAfter
            simp [hs, hr, List.countP_append, List.countP_cons, isCreateCall]
            omega

/-- The creation loop never performs workspace cleanup itself. -/
theorem createRepoLoop_no_cleanup (env : CreateEnv) :
    ∀ (budget attempt : Nat) (fa : Bool) (ek : Option String),
      ((createRepoLoop env budget attempt fa ek).2.countP isCleanup) = 0 := by
  intro budget
  induction budget with
  | zero =>
    intro attempt fa ek
    rw [createRepoLoop]
    cases hp : env.prereqErr attempt with
    | some e => simp [List.countP_cons, isCleanup]
    | none =>
      cases hc : env.createRes attempt with
      | error exc => simp [List.countP_cons, isCleanup]
      | ok res =>
        cases hs : res.success <;>
          simp [hs, List.countP_cons, isCleanup]
  | succ b ih =>
    intro attempt fa ek
    rw [createRepoLoop]
    cases hp : env.prereqErr attempt with
    | some e => simp [List.countP_cons, isCleanup]
    | none =>
      cases hc : env.createRes attempt with
      | error exc => simp [List.countP_cons, isCleanup]
      | ok res =>
        cases hs : res.success with
        | true => simp [hs, List.countP_cons, isCleanup]
        | false =>
          cases hr : shouldRetryWithReauth env attempt (res.error.getD "Unknown error")
              ek false with
          | false => simp [hs, hr, List.countP_cons, isCleanup]
          | true =>
            have hcount := ih (attempt + 1) false env.envKeyAfter
            simp [hs, hr, List.countP_append, List.countP_cons, isCleanup, hcount]

/-- C5: the orchestrator's creation loop invokes `create_repository` at most
twice per run; when the first attempt fails with the integration-permission
pattern, a token variable is detected, scopes are insufficient and the user's
re-authentication succeeds, creation is retried exactly once with
`skip_git_operations = True`, and a failing second attempt is terminal. -/
theorem C5_creation_retry_protocol :
    (∀ env : CreateEnv, ((create_github_repo env).2.countP isCreateCall) ≤ 2) ∧
    (∀ (env : CreateEnv) (r0 r1 : GhResult) (k : String),
      env.prereqErr 0 = none →
      env.createRes 0 = .ok r0 →
      r0.success = false →
      isIntegrationPermissionError (some (r0.error.getD "Unknown error")) = true →
      env.envKey0 = some k →
      env.scopesHasRepo 0 = false →
      env.consentRelogin = true →
      env.prereqErr 1 = none →
      env.createRes 1 = .ok r1 →
      (create_github_repo env).2.filter isCreateCall
          = [Event.createCall false, Event.createCall true] ∧
      (r1.success = false →
        ∃ msg, (create_github_repo env).1 = .ok (false, some msg))) := by
  constructor
  · intro env
    exact createRepoLoop_createCall_le env 1 0 true env.envKey0
  · intro env r0 r1 k h1 h2 h3 h4 h5 h6 h7 h8 h9
    have hretry : shouldRetryWithReauth env 0 (r0.error.getD "Unknown error")
        (some k) false = true := by
      simp [shouldRetryWithReauth, h4, h6, h7]
    cases hs : r1.success with
    | true =>
      refine ⟨?_, ?_⟩
      · unfold create_github_repo
        simp [createRepoLoop, h1, h2, h3, h5, hretry, h8, h9, hs, isCreateCall]
      · intro hcon
        exact absurd hcon (by decide)
    | false =>
      constructor
      · unfold create_github_repo
        simp [createRepoLoop, h1, h2, h3, h5, hretry, h8, h9, hs, isCreateCall]
      · intro _
        unfold create_github_repo
        simp [createRepoLoop, createRepoFailResult, h1, h2, h3, h5, hretry, h8, h9, hs]

/-- A concrete creation-loop environment: first attempt fails with the
integration-permission pattern while `GITHUB_TOKEN` is set and scopes are
missing, the user consents to re-login, and the second attempt succeeds. -/
def retryCreateEnv : CreateEnv :=
  { repoName := "test-repo",
    prereqErr := fun _ => none,
    createRes := fun n =>
      if n = 0 then
        .ok { success := false, output := none,
              error := some "GraphQL: Resource not accessible by integration (createRepository)",
              returncode := some 1, dryRun := false, message := none }
      else .ok (mkGhResult true),
    scopesHasRepo := fun _ => false,
    envKey0 := some "GITHUB_TOKEN",
    envKeyAfter := none,
    consentRelogin := true }

/-- Witness for C5 at `retryCreateEnv`: creation is attempted exactly twice,
the second time with `skip_git_operations = True`. -/
theorem C5_witness :
    (create_github_repo retryCreateEnv).2.filter isCreateCall
      = [Event.createCall false, Event.createCall true] :=
  (C5_creation_retry_protocol.2 retryCreateEnv
    { success := false, output := none,
      error := some "GraphQL: Resource not accessible by integration (createRepository)",
      returncode := some 1, dryRun := false, message := none }
    (mkGhResult true) "GITHUB_TOKEN"
    rfl rfl rfl (by decide) rfl rfl rfl rfl rfl).1

/-- Finalization performs no host-CLI invocation. -/
theorem finalizeWorkspace_no_host (env : CliEnv) :
    (finalizeWorkspace env).2.countP isHostInvocation = 0 := by
  unfold finalizeWorkspace handleOutputDirectory
  cases ho : env.outputDir with
  | none => simp [isHostInvocation]
  | some d =>
    cases hc : env.copytreeErr with
    | some e => cases hex : env.outputExists <;> simp [hex, isHostInvocation]
    | none => cases hex : env.outputExists <;> simp [hex, isHostInvocation]

/-- Finalization cleans the workspace at most once, and exactly once unless
the run redirects to an output directory and the copy there fails. -/
theorem finalizeWorkspace_cleanup (env : CliEnv) :
    (finalizeWorkspace env).2.countP isCleanup ≤ 1 ∧
    ((env.outputDir = none ∨ env.copytreeErr = none) →
      (finalizeWorkspace env).2.countP isCleanup = 1) := by
  unfold finalizeWorkspace handleOutputDirectory
  cases ho : env.outputDir with
  | none => simp [isCleanup]
  | some d =>
    cases hc : env.copytreeErr with
    | some e => cases hex : env.outputExists <;> simp [hex, isCleanup, ho, hc]
    | none => cases hex : env.outputExists <;> simp [hex, isCleanup]

/-- Finalization exits 0 unless the output-directory copy fails. -/
theorem finalizeWorkspace_exit (env : CliEnv)
    (h : env.outputDir = none ∨ env.copytreeErr = none) :
    (finalizeWorkspace env).1 = 0 := by
  unfold finalizeWorkspace handleOutputDirectory
  cases ho : env.outputDir with
  | none => rfl
  | some d =>
    have hc : env.copytreeErr = none := by
      rcases h with h | h
      · rw [ho] at h; exact absurd h (by simp)
      · exact h
    rw [hc]

/-- C2 (amended): under dry-run the `create` command never invokes the
external host CLI, and — provided the repository name is valid, the
selection is non-empty, collection and packaging succeed, and any requested
output-directory copy succeeds — it exits 0. -/
theorem C2_dry_run_success_no_host :
    (∀ env : CliEnv, env.dryRun = true →
      (create_command env).2.countP isHostInvocation = 0) ∧
    (∀ (env : CliEnv) (exs : List String),
      env.dryRun = true →
      validate_repo_name env.repoName = true →
      env.selectResult = .ok exs → exs ≠ [] →
      env.collectErr = none →
      env.buildResult = .ok true →
      (env.outputDir = none ∨ env.copytreeErr = none) →
      (create_command env).1 = 0) := by
  constructor
  · intro env hdry
    unfold create_command
    cases hv : validate_repo_name env.repoName with
    | false => simp
    | true =>
      simp only [Bool.not_true, Bool.false_eq_true, if_false]
      cases hsel : env.selectResult with
      | error e => simp
      | ok exs =>
        by_cases hexs : exs = []
        · simp [hexs]
        · simp only [hexs, if_neg, if_false]
          cases hcol : env.collectErr with
          | some e => simp
          | none =>
            simp only []
            unfold executeTemplateCreation handleRepositoryCreation
            rw [hdry]
            cases hb : env.buildResult with
            | error e => simp [isHostInvocation]
            | ok v =>
              cases v with
              | false => simp [isHostInvocation]
              | true =>
                simp [List.countP_append, finalizeWorkspace_no_host env]
  · intro env exs hdry hv hsel hexs hcol hb hout
    unfold create_command
    rw [hv, hsel, hcol]
    simp only [Bool.not_true, Bool.false_eq_true, if_false, hexs, if_neg]
    unfold executeTemplateCreation handleRepositoryCreation
    rw [hdry, hb]
    simp [finalizeWorkspace_exit env hout]

/-- Counterexample to C2 as stated: a dry-run invocation with a valid
repository name and a valid, non-empty construct selection still exits 1
when template packaging fails (here: the template-files directory is
missing), so "dry-run plus valid selection" alone does not guarantee exit
code 0. -/
theorem C2_counterexample :
    ({ dryRun := true, outputDir := none, repoName := "my-repo",
       selectResult := .ok ["ex001_a"], collectErr := none,
       buildResult := .error "FileNotFoundError: Template files directory not found",
       createEnv := benignCreateEnv, outputExists := false,
       copytreeErr := none : CliEnv }.dryRun = true) ∧
    validate_repo_name "my-repo" = true ∧
    (create_command
      { dryRun := true, outputDir := none, repoName := "my-repo",
        selectResult := .ok ["ex001_a"], collectErr := none,
        buildResult := .error "FileNotFoundError: Template files directory not found",
        createEnv := benignCreateEnv, outputExists := false,
        copytreeErr := none }).1 = 1 :=
  ⟨rfl, by decide, rfl⟩

/-- A concrete happy dry-run orchestrator state. -/
def dryRunHappyEnv : CliEnv :=
  { dryRun := true, outputDir := none, repoName := "my-repo",
    selectResult := .ok ["ex001_a"], collectErr := none,
    buildResult := .ok true, createEnv := benignCreateEnv,
    outputExists := false, copytreeErr := none }

/-- Witness for C2 (amended) at `dryRunHappyEnv`. -/
theorem C2_witness :
    (create_command dryRunHappyEnv).1 = 0 ∧
    (create_command dryRunHappyEnv).2.countP isHostInvocation = 0 :=
  ⟨C2_dry_run_success_no_host.2 dryRunHappyEnv ["ex001_a"] rfl (by decide) rfl
      (by decide) rfl rfl (Or.inl rfl),
    C2_dry_run_success_no_host.1 dryRunHappyEnv rfl⟩

/-- Whether the creation phase ended in success (so the run proceeds to
finalization): dry-run short-circuit or an `ok (true, _)` loop result. -/
def repoCreationOk : Except String (Bool × Option String) → Bool
  | .ok (true, _) => true
  | _ => false

/-- Whether a run reaches `_finalize_workspace`: the package built and
validated, and either dry-run was on or repository creation succeeded. -/
def reachesFinalize (env : CliEnv) : Bool :=
  match env.buildResult with
  | .ok true => env.dryRun || repoCreationOk (create_github_repo env.createEnv).1
  | _ => false

/-- Whether a run takes the one exit path that skips cleanup: it reaches
finalization with an output directory requested and the copy there failing. -/
def outputCopyFails (env : CliEnv) : Bool :=
  reachesFinalize env && env.outputDir.isSome && env.copytreeErr.isSome

/-- Finalization cleans the workspace exactly once, except when redirecting
to an output directory and the copy there fails (zero times). -/
theorem finalizeWorkspace_cleanup_count (env : CliEnv) :
    (finalizeWorkspace env).2.countP isCleanup =
      if env.outputDir.isSome && env.copytreeErr.isSome then 0 else 1 := by
  unfold finalizeWorkspace handleOutputDirectory
  cases ho : env.outputDir with
  | none => simp [isCleanup]
  | some d =>
    cases hc : env.copytreeErr with
    | some e => cases hex : env.outputExists <;> simp [hex, isCleanup]
    | none => cases hex : env.outputExists <;> simp [hex, isCleanup]

/-- C9 (amended): on every exit path of a packaging run — package-validation
failure, host-client failure, unexpected exception, success, with or without
output-directory redirection — the workspace-cleanup call is reached exactly
once, except on the single path that reaches a failing output-directory copy,
where the ephemeral workspace is deliberately preserved and cleanup is
reached zero times. -/
theorem C9_cleanup_exactly_once (env : CliEnv) :
    (executeTemplateCreation env).2.countP isCleanup =
      if outputCopyFails env then 0 else 1 := by
  unfold executeTemplateCreation handleRepositoryCreation outputCopyFails
    reachesFinalize
  cases hb : env.buildResult with
  | error e => simp [isCleanup]
  | ok v =>
    cases v with
    | false => simp [isCleanup]
    | true =>
      cases hdry : env.dryRun with
      | true =>
        simpa [List.countP_append] using finalizeWorkspace_cleanup_count env
      | false =>
        have hnc : (create_github_repo env.createEnv).2.countP isCleanup = 0 :=
          createRepoLoop_no_cleanup env.createEnv 1 0 true env.createEnv.envKey0
        rcases hcg : create_github_repo env.createEnv with ⟨res, evs⟩
        rw [hcg] at hnc
        simp only at hnc
        cases res with
        | error exc => simp [List.countP_append, isCleanup, hnc, repoCreationOk]
        | ok p =>
          rcases p with ⟨b, msg⟩
          cases b with
          | true =>
            simpa [List.countP_append, hnc, repoCreationOk]
              using finalizeWorkspace_cleanup_count env
          | false => simp [List.countP_append, isCleanup, hnc, repoCreationOk]

/-- Counterexample to C9 as stated: when the output-directory copy fails the
run exits 1 having deleted the pre-existing output directory but never
reaching cleanup — the ephemeral workspace is preserved, not destroyed. -/
theorem C9_counterexample :
    executeTemplateCreation
      { dryRun := true, outputDir := some "out", repoName := "my-repo",
        selectResult := .ok ["ex001_a"], collectErr := none,
        buildResult := .ok true, createEnv := benignCreateEnv,
        outputExists := true, copytreeErr := some "disk full" }
      = (1, [Event.rmtreeOutput]) ∧
    (executeTemplateCreation
      { dryRun := true, outputDir := some "out", repoName := "my-repo",
        selectResult := .ok ["ex001_a"], collectErr := none,
        buildResult := .ok true, createEnv := benignCreateEnv,
        outputExists := true, copytreeErr := some "disk full" }).2.countP isCleanup
      = 0 :=
  ⟨rfl, rfl⟩

/-- Witness for C9 (amended) at concrete runs: a happy dry-run cleans the
workspace exactly once, and a run whose output-directory copy fails cleans
it zero times. -/
theorem C9_witness :
    (executeTemplateCreation dryRunHappyEnv).2.countP isCleanup = 1 ∧
    (executeTemplateCreation
      { dryRun := true, outputDir := some "out", repoName := "my-repo",
        selectResult := .ok ["ex001_a"], collectErr := none,
        buildResult := .ok true, createEnv := benignCreateEnv,
        outputExists := true, copytreeErr := some "disk full" }).2.countP isCleanup
      = 0 := by
  constructor
  · rw [C9_cleanup_exactly_once dryRunHappyEnv]
    rfl
  · rw [C9_cleanup_exactly_once
      { dryRun := true, outputDir := some "out", repoName := "my-repo",
        selectResult := .ok ["ex001_a"], collectErr := none,
        buildResult := .ok true, createEnv := benignCreateEnv,
        outputExists := true, copytreeErr := some "disk full" }]
    rfl

theorem pathAncestors_pair (a b : String) : pathAncestors [a, b] = [[a]] := rfl

theorem pathAncestors_triple (a b c : String) :
    pathAncestors [a, b, c] = [[a], [a, b]] := rfl

theorem safe_copy_file_files_mono {ws : Workspace} {p : List String}
    (d : List String) (h : p ∈ ws.files) : p ∈ (safe_copy_file ws d).files :=
  List.mem_cons_of_mem _ h

theorem safe_copy_file_dirs_mono {ws : Workspace} {p : List String}
    (d : List String) (h : p ∈ ws.dirs) : p ∈ (safe_copy_file ws d).dirs :=
  List.mem_append_right _ h

theorem copyExerciseStep_files_mono (incl : Bool) (entry : String × ExFiles)
    {ws : Workspace} {p : List String} (h : p ∈ ws.files) :
    p ∈ (copyExerciseStep incl ws entry).files := by
  rcases entry with ⟨eid, nb, sol, tst, md⟩
  unfold copyExerciseStep
  cases nb <;> cases sol <;> cases tst <;> cases md <;> cases incl <;>
    simp [safe_copy_file, List.mem_cons, h]

theorem copyExerciseStep_dirs_mono (incl : Bool) (entry : String × ExFiles)
    {ws : Workspace} {p : List String} (h : p ∈ ws.dirs) :
    p ∈ (copyExerciseStep incl ws entry).dirs := by
  rcases entry with ⟨eid, nb, sol, tst, md⟩
  unfold copyExerciseStep
  cases nb <;> cases sol <;> cases tst <;> cases md <;> cases incl <;>
    simp [safe_copy_file, List.mem_append, h]

theorem copy_exercise_files_dirs_mono (incl : Bool)
    (files : List (String × ExFiles)) :
    ∀ (ws : Workspace) (p : List String), p ∈ ws.dirs →
      p ∈ (copy_exercise_files ws files incl).dirs := by
  induction files with
  | nil => intro ws p h; exact h
  | cons x rest ih =>
    intro ws p h
    exact ih _ _ (copyExerciseStep_dirs_mono incl x h)

/-- Copying the files of an exercise set containing at least one notebook
creates the `notebooks/` directory. -/
theorem copy_exercise_files_notebooks_dir (incl : Bool)
    (files : List (String × ExFiles)) :
    ∀ ws : Workspace, (∃ e ∈ files, e.2.notebook.isSome) →
      ["notebooks"] ∈ (copy_exercise_files ws files incl).dirs := by
  induction files with
  | nil => rintro ws ⟨e, he, -⟩; exact absurd he (List.not_mem_nil e)
  | cons x rest ih =>
    rintro ws ⟨e, he, hnb⟩
    rcases List.mem_cons.mp he with rfl | he2
    · refine copy_exercise_files_dirs_mono incl rest _ _ ?_
      rcases e with ⟨eid, nb, sol, tst, md⟩
      cases nb with
      | none => exact absurd hnb (by simp)
      | some v =>
        unfold copyExerciseStep
        cases sol <;> cases tst <;> cases md <;> cases incl <;>
          simp [safe_copy_file, pathAncestors_pair, pathAncestors_triple,
            List.mem_append, List.mem_cons]
    · exact ih (copyExerciseStep incl ws x) ⟨e, he2, hnb⟩

/-- With the template-files directory present, the required manifests in it,
and the grading harness in the repository, `copy_template_base_files`
succeeds and establishes the packager's required files and `tests/`
directory, preserving existing directories. -/
theorem copy_template_base_files_ok (src : TemplateSrc) (ws : Workspace)
    (hdir : src.templateDirExists = true)
    (hpy : "pyproject.toml" ∈ src.templateFiles)
    (hpt : "pytest.ini" ∈ src.templateFiles)
    (hgr : src.graderExists = true) :
    ∃ ws', copy_template_base_files src ws = .ok ws' ∧
      ["pyproject.toml"] ∈ ws'.files ∧
      ["pytest.ini"] ∈ ws'.files ∧
      ["tests", "notebook_grader.py"] ∈ ws'.files ∧
      ["tests"] ∈ ws'.dirs ∧
      (∀ p, p ∈ ws.dirs → p ∈ ws'.dirs) := by
  unfold copy_template_base_files
  by_cases hgi : ".gitignore" ∈ src.templateFiles <;>
  by_cases hvs : ".vscode" ∈ src.templateFiles <;>
  by_cases hgh : ".github" ∈ src.templateFiles <;>
  by_cases hin : "INSTRUCTIONS.md" ∈ src.templateFiles <;>
    simp [hdir, hpy, hpt, hgr, hgi, hvs, hgh, hin, safe_copy_file,
      safe_copy_directory, pathTouch, pathAncestors_pair, List.mem_append,
      List.mem_cons] <;>
    tauto

/-- C4 (amended): after `copy_exercise_files` + `copy_template_base_files` +
`generate_readme`, `validate_package` returns true — provided the
template-files directory is present *and* supplies `pyproject.toml` and
`pytest.ini`, the repository provides `tests/notebook_grader.py`, and the
copied exercise set contains at least one notebook. -/
theorem C4_packager_round_trip
    (ws0 : Workspace) (files : List (String × ExFiles)) (incl : Bool)
    (src : TemplateSrc)
    (hdir : src.templateDirExists = true)
    (hpy : "pyproject.toml" ∈ src.templateFiles)
    (hpt : "pytest.ini" ∈ src.templateFiles)
    (hgr : src.graderExists = true)
    (hnb : ∃ e ∈ files, e.2.notebook.isSome) :
    ∃ ws', copy_template_base_files src (copy_exercise_files ws0 files incl)
        = .ok ws' ∧
      validate_package (generate_readme ws') = true := by
  obtain ⟨ws', hok, h1, h2, h3, h4, hmono⟩ :=
    copy_template_base_files_ok src (copy_exercise_files ws0 files incl)
      hdir hpy hpt hgr
  refine ⟨ws', hok, ?_⟩
  have hnbdir : ["notebooks"] ∈ ws'.dirs :=
    hmono _ (copy_exercise_files_notebooks_dir incl files ws0 hnb)
  simp [validate_package, generate_readme, h1, h2, h3, h4, hnbdir]

/-- Counterexample to C4 as stated: with the template-files directory present
but empty (and the grading harness available), the pipeline completes yet
`validate_package` is false — mere presence of the template-files directory
does not make the round trip validate. -/
theorem C4_counterexample :
    (TemplateSrc.mk true [] true none).templateDirExists = true ∧
    copy_template_base_files (TemplateSrc.mk true [] true none)
        (copy_exercise_files (Workspace.mk [] []) [] true)
      = .ok (Workspace.mk [["tests", "__init__.py"], ["tests", "notebook_grader.py"]]
          [["tests"]]) ∧
    validate_package (generate_readme
      (Workspace.mk [["tests", "__init__.py"], ["tests", "notebook_grader.py"]]
        [["tests"]])) = false :=
  ⟨rfl, rfl, rfl⟩

/-- Witness for C4 (amended) at a concrete exercise set and template source. -/
theorem C4_witness :
    ∃ ws', copy_template_base_files
        (TemplateSrc.mk true ["pyproject.toml", "pytest.ini"] true none)
        (copy_exercise_files (Workspace.mk [] [])
          [("ex001_a", ExFiles.mk (some ["notebooks", "ex001_a.ipynb"]) none
            (some ["tests", "test_ex001_a.py"]) none)] true)
      = .ok ws' ∧
      validate_package (generate_readme ws') = true :=
  C4_packager_round_trip (Workspace.mk [] [])
    [("ex001_a", ExFiles.mk (some ["notebooks", "ex001_a.ipynb"]) none
      (some ["tests", "test_ex001_a.py"]) none)] true
    (TemplateSrc.mk true ["pyproject.toml", "pytest.ini"] true none)
    rfl (by decide) (by decide) rfl (by decide)
